import Mathlib

/-!
Shallow embedding, in Lean 4, of the parts of the romans-rater application
(a commercial auto-liability quote checker) that the verified claims are
about: the fees-and-taxes engine (`calculateFeesAndTaxes`, `roundToCents`),
the auto-liability rating engine (`aggregateDriverFactors`,
`applyMinimumPremium`), rating-program resolution (`resolveProgram`),
workbook ingestion (`scanForStateCodes`, `extractMinPremiums`), document
field normalization (`normalizeVehicleClass`) and the reconciliation engine
(`reconcileTotals`).

Modelling conventions:
* JavaScript numbers are modelled as rationals (`ℚ`); all the code under
  study manipulates currency amounts in cents and small rating factors, for
  which double-precision arithmetic is exact or intended-exact, and the
  claims are about the arithmetic the source writes down, not about
  floating-point artifacts.
* `Math.round`, `Math.floor`, `Math.ceil` become `jsRound`, `Int.floor`,
  `Int.ceil`.
* A JavaScript value that may be `undefined`/`null` is an `Option`;
  JavaScript truthiness tests on numbers (`x || d`) and strings are made
  explicit (`jsOrNum`, `jsOrStr`, `jsOrOptNum`).
* JavaScript string helpers `trim`/`toUpperCase`/`toLowerCase` are
  re-implemented over character lists (`jsTrim`, `jsToUpper`, `jsToLower`)
  because the inputs involved are ASCII; Lean's built-in `String.toUpper`
  does not reduce in the kernel.
-/

/-- JavaScript `Math.round`: round half toward positive infinity. -/
def jsRound (v : ℚ) : ℤ := ⌊v + 1/2⌋

/-- JavaScript `x || d` for a number `x` that is always present:
`0` is falsy and replaced by the default. (`NaN` does not arise in the
rational model.) -/
def jsOrNum (v : ℚ) (d : ℚ) : ℚ := if v = 0 then d else v

/-- JavaScript `x || d` for a possibly-`undefined` number field. -/
def jsOrOptNum (v : Option ℚ) (d : ℚ) : ℚ :=
  match v with
  | some x => jsOrNum x d
  | none => d

/-- JavaScript `s || d` for a possibly-`undefined` string: `undefined` and
the empty string are falsy. -/
def jsOrStr (s : Option String) (d : String) : String :=
  match s with
  | some x => if x = "" then d else x
  | none => d

/-- The whitespace characters relevant to the ASCII inputs handled here;
models the character class trimmed by JavaScript `String.prototype.trim`. -/
def isSpaceChar (c : Char) : Bool := c = ' ' || c = '\t' || c = '\n' || c = '\r'

/-- Trim leading and trailing whitespace from a character list. -/
def trimChars (l : List Char) : List Char :=
  ((l.dropWhile isSpaceChar).reverse.dropWhile isSpaceChar).reverse

/-- JavaScript `String.prototype.trim` (ASCII inputs). -/
def jsTrim (s : String) : String := String.mk (trimChars s.data)

/-- JavaScript `String.prototype.toUpperCase` (ASCII inputs). -/
def jsToUpper (s : String) : String := String.mk (s.data.map Char.toUpper)

/-- JavaScript `String.prototype.toLowerCase` (ASCII inputs). -/
def jsToLower (s : String) : String := String.mk (s.data.map Char.toLower)

/-!
## Fees and Taxes Engine

Embedding of the fee/tax module (`calculateFeesAndTaxes`,
`calculateTaxableBase`, `roundToCents`).  Money values are cents, carried as
JavaScript numbers, hence `ℚ` here; the integer outputs of the rounding
helpers are cast back into `ℚ` exactly as the source keeps everything in the
one number type.
-/

/-- Banker's-rounding helper of the fee engine.  Direct transcription: it
takes `Math.round(value)`, but when the fractional part is within `0.0001`
of `0.5` it instead returns the floor when the floor is even and the
ceiling otherwise.  (JavaScript `floor % 2 === 0` and Lean `⌊v⌋ % 2 = 0`
agree on evenness for negative floors as well.) -/
def roundToCents (value : ℚ) : ℤ :=
  let rounded := jsRound value
  let decimal := value - ⌊value⌋
  if |decimal - 1/2| < 1/10000 then
    let f := ⌊value⌋
    if f % 2 = 0 then f else ⌈value⌉
  else rounded

/-- A flat-or-percentage fee rule (the `fire` / `other` entries of a state's
tax rules). -/
structure FeeRule where
  type : String
  value : ℚ
deriving DecidableEq

/-- The `taxable` flags of a state's tax rules. -/
structure TaxableFlags where
  policy : Bool
  uw : Bool
  broker : Bool
deriving DecidableEq

/-- The `uwPolicyFees` record of a state's tax rules. -/
structure UwPolicyFees where
  policyFeeStd : ℚ
  policyFeeNJ : ℚ
  uwFeeNew : ℚ
  uwFeeRen : ℚ
deriving DecidableEq

/-- A state's tax rules.  `taxable` and `uwPolicyFees` may be absent (the
source substitutes defaults via `||`). -/
structure TaxRules where
  slt_rate : ℚ
  stamp_rate : ℚ
  fire : Option FeeRule
  other : Option FeeRule
  taxable : Option TaxableFlags
  uwPolicyFees : Option UwPolicyFees
deriving DecidableEq

/-- Input record of `calculateFeesAndTaxes`.  `alSubtotal` is always a
number here (the source's non-number guard is out of the model); `state` is
always a string (the source's `input.state || ''` only replaces a missing
string by the empty string). -/
structure FeeInput where
  alSubtotal : ℚ
  state : String
  policyType : Option String
  isAdmitted : Bool
  brokerFee : Option ℚ

/-- One line of the itemized fee breakdown. -/
structure BreakdownItem where
  name : String
  amount : ℚ
  taxable : Bool

/-- Result record of `calculateFeesAndTaxes`. -/
structure FeeResult where
  alSubtotal : ℚ
  policyFee : ℚ
  uwFee : ℚ
  brokerFee : ℚ
  taxableBase : ℚ
  slt : ℚ
  stamp : ℚ
  fire : ℚ
  other : ℚ
  total : ℚ
  breakdown : List BreakdownItem
  errors : List String
  warnings : List String

/-- `calculateTaxableBase`: sum the AL subtotal with whichever of the three
fees the state marks taxable, then `Math.round`. -/
def calculateTaxableBase (alSubtotal policyFee uwFee brokerFee : ℚ)
    (taxable : TaxableFlags) : ℚ :=
  let base := alSubtotal
    + (if taxable.policy then policyFee else 0)
    + (if taxable.uw then uwFee else 0)
    + (if taxable.broker then brokerFee else 0)
  (jsRound base : ℚ)

/-- `calculateFeesAndTaxes`: compute policy/UW/broker fees, the taxable
base, SLT/stamp taxes (zeroed for admitted policies), fire/other fees and
the grand total.  `taxRules = none` models the missing-tax-rules early
return; the invalid-`input` early return concerns non-number arguments that
are outside this model. -/
def calculateFeesAndTaxes (input : FeeInput) (taxRules : Option TaxRules) :
    FeeResult :=
  match taxRules with
  | none =>
    { alSubtotal := input.alSubtotal, policyFee := 0, uwFee := 0,
      brokerFee := 0, taxableBase := 0, slt := 0, stamp := 0, fire := 0,
      other := 0, total := input.alSubtotal, breakdown := [],
      errors := ["Tax rules not available for this state"], warnings := [] }
  | some rules =>
    let alSubtotal : ℚ := max 0 (jsRound input.alSubtotal : ℚ)
    let policyType := jsToLower (jsOrStr input.policyType "new")
    let isRenewal := policyType = "renewal"
    let state := jsToUpper (jsTrim input.state)
    let uwPolicyFees := rules.uwPolicyFees.getD
      { policyFeeStd := 250, policyFeeNJ := 275, uwFeeNew := 150, uwFeeRen := 100 }
    let policyFee :=
      if state = "NJ" then jsOrNum uwPolicyFees.policyFeeNJ 275
      else jsOrNum uwPolicyFees.policyFeeStd 250
    let uwFee :=
      if isRenewal then jsOrNum uwPolicyFees.uwFeeRen 100
      else jsOrNum uwPolicyFees.uwFeeNew 150
    let brokerFee :=
      match input.brokerFee with
      | some b => max 0 (jsRound b : ℚ)
      | none => 0
    let taxable := rules.taxable.getD
      { policy := true, uw := true, broker := false }
    let taxableBase := calculateTaxableBase alSubtotal policyFee uwFee brokerFee taxable
    let isAdmitted := input.isAdmitted = true
    let slt :=
      if ¬isAdmitted ∧ rules.slt_rate ≠ 0 then
        (roundToCents (taxableBase * rules.slt_rate) : ℚ)
      else 0
    let stamp :=
      if ¬isAdmitted ∧ rules.stamp_rate ≠ 0 then
        (roundToCents (taxableBase * rules.stamp_rate) : ℚ)
      else 0
    let fire :=
      match rules.fire with
      | some r =>
        if r.type = "percentage" then (roundToCents (taxableBase * r.value) : ℚ)
        else (jsRound (jsOrNum r.value 0) : ℚ)
      | none => 0
    let other :=
      match rules.other with
      | some r =>
        if r.type = "percentage" then (roundToCents (taxableBase * r.value) : ℚ)
        else (jsRound (jsOrNum r.value 0) : ℚ)
      | none => 0
    let total := alSubtotal + policyFee + uwFee + brokerFee + slt + stamp + fire + other
    { alSubtotal := alSubtotal, policyFee := policyFee, uwFee := uwFee,
      brokerFee := brokerFee, taxableBase := taxableBase, slt := slt,
      stamp := stamp, fire := fire, other := other, total := total,
      breakdown :=
        [ { name := "AL Base Premium", amount := alSubtotal, taxable := true },
          { name := "Policy Fee", amount := policyFee, taxable := taxable.policy },
          { name := "UW Fee", amount := uwFee, taxable := taxable.uw },
          { name := "Broker Fee", amount := brokerFee, taxable := taxable.broker },
          { name := "Surplus Lines Tax (SLT)", amount := slt, taxable := false },
          { name := "Stamp Fee", amount := stamp, taxable := false },
          { name := "Fire Marshal Fee", amount := fire, taxable := false },
          { name := "Other Fees", amount := other, taxable := false } ],
      errors := [],
      warnings :=
        if isAdmitted then ["Admitted policy: SLT and Stamp fees set to $0"] else [] }

/-!
## Auto-Liability Rating Engine

Embedding of `aggregateDriverFactors` and `applyMinimumPremium` from the
rating engine.  A driver record reaches `aggregateDriverFactors` carrying a
pre-computed `compositeFactor`; only that field is read, so the embedding
keeps only it.
-/

/-- A driver with its composite (age × experience × MVR) factor. -/
structure DriverFactor where
  compositeFactor : ℚ

/-- `aggregateDriverFactors`: aggregate driver composite factors with a
caller-selected method.  An empty list returns the neutral factor `1.0`
before any branch (and before any division) is reached; a singleton returns
its only factor; otherwise the method string is lowercased and dispatched to
mean / worst (maximum) / weighted (primary 60 %, the rest sharing 40 %
equally), with mean as the fallback for unknown methods. -/
def aggregateDriverFactors (driversWithFactors : List DriverFactor)
    (method : String) : ℚ :=
  match driversWithFactors with
  | [] => 1
  | [d] => d.compositeFactor
  | d :: ds =>
    let normalizedMethod := jsToLower method
    if normalizedMethod = "mean" then
      ((d :: ds).map (fun x => x.compositeFactor)).sum / ((d :: ds).length : ℚ)
    else if normalizedMethod = "worst" then
      (ds.map (fun x => x.compositeFactor)).foldl max d.compositeFactor
    else if normalizedMethod = "weighted" then
      let primaryFactor := d.compositeFactor
      let primaryWeight : ℚ := 0.60
      let otherWeight : ℚ := 0.40 / (ds.length : ℚ)
      let otherSum := (ds.map (fun x => x.compositeFactor * otherWeight)).sum
      primaryFactor * primaryWeight + otherSum
    else
      ((d :: ds).map (fun x => x.compositeFactor)).sum / ((d :: ds).length : ℚ)

/-- A per-unit premium entry as adjusted by `applyMinimumPremium`; the
source unit objects carry further vehicle fields that the function never
reads. -/
structure UnitPremium where
  premium : ℚ
  minimumApplied : Option String
deriving DecidableEq

/-- A program's minimum-premium configuration. -/
structure MinPremiums where
  perUnit : ℚ
  perPolicy : ℚ
deriving DecidableEq

/-- Result record of `applyMinimumPremium`. -/
structure MinPremiumResult where
  perUnit : List UnitPremium
  subtotal : ℚ
  minimumApplied : Option String
deriving DecidableEq

/-- `applyMinimumPremium`: raise each unit premium to the per-unit minimum
(tagging it), sum the adjusted premiums, then raise that subtotal to the
per-policy minimum (tagging the result).  The JavaScript guard
`minPerUnit && typeof minPerUnit === 'number' && minPerUnit > 0` is the
conjunction `mp.perUnit ≠ 0 ∧ 0 < mp.perUnit` (non-numbers are outside the
model). -/
def applyMinimumPremium (perUnit : List UnitPremium)
    (minPremiums : Option MinPremiums) : MinPremiumResult :=
  match minPremiums with
  | none =>
    { perUnit := perUnit,
      subtotal := (perUnit.map (fun u => u.premium)).sum,
      minimumApplied := none }
  | some mp =>
    let adjusted :=
      if mp.perUnit ≠ 0 ∧ 0 < mp.perUnit then
        perUnit.map (fun u =>
          if u.premium < mp.perUnit then
            { u with premium := mp.perUnit, minimumApplied := some "per-unit" }
          else u)
      else perUnit
    let subtotal0 := (adjusted.map (fun u => u.premium)).sum
    let applyPolicy := (mp.perPolicy ≠ 0 ∧ 0 < mp.perPolicy) ∧ subtotal0 < mp.perPolicy
    let subtotal := if applyPolicy then mp.perPolicy else subtotal0
    let minApplied : Option String := if applyPolicy then some "policy" else none
    let minApplied :=
      if minApplied = none ∧ adjusted.any (fun u => u.minimumApplied ≠ none) then
        some "per-unit"
      else minApplied
    { perUnit := adjusted, subtotal := subtotal, minimumApplied := minApplied }

/-!
## Rating-Program Resolution

Embedding of `resolveProgram` from the program-mapping module.  Of a
loaded rating table the function consults only (a) whether the table and
its `bodyClass` object exist and (b) which state keys `bodyClass` has, so a
table is modelled as an optional list of state keys.
-/

/-- A rating table, restricted to the part `resolveProgram` consults:
`bodyClass = some keys` means the table has a `bodyClass` object whose
state keys are `keys`; `none` means the table is structurally invalid. -/
structure RatingTable where
  bodyClass : Option (List String)

/-- Result record of `resolveProgram`. -/
structure ProgramResult where
  program : Option String
  confidence : String
  reason : String
  errors : List String
  warnings : List String

/-- `resolveProgram`: validate the state code, check which of the two
tables cover it, and resolve CW/SS with the documented tie-break (both →
CW, confidence medium, overlap warning; one → that program, high; neither →
no program, none, error). -/
def resolveProgram (state : String) (cwTable ssTable : Option RatingTable) :
    ProgramResult :=
  if trimChars state.data = [] then
    { program := none, confidence := "none", reason := "",
      errors := ["State code is required"], warnings := [] }
  else
    let normalizedState := jsToUpper (jsTrim state)
    let cwKeys := cwTable.bind (fun t => t.bodyClass)
    let ssKeys := ssTable.bind (fun t => t.bodyClass)
    if cwKeys = none ∧ ssKeys = none then
      { program := none, confidence := "none", reason := "",
        errors := ["No valid rating tables available"], warnings := [] }
    else
      let cwCovers := match cwKeys with
        | some ks => ks.contains normalizedState
        | none => false
      let ssCovers := match ssKeys with
        | some ks => ks.contains normalizedState
        | none => false
      if cwCovers && ssCovers then
        { program := some "CW", confidence := "medium",
          reason := "State " ++ normalizedState ++
            " is covered by both CW and SS programs. Using CW (default preference).",
          errors := [],
          warnings := ["State covered by both programs - using CW by default"] }
      else if cwCovers then
        { program := some "CW", confidence := "high",
          reason := "State " ++ normalizedState ++ " is covered by CW program only.",
          errors := [], warnings := [] }
      else if ssCovers then
        { program := some "SS", confidence := "high",
          reason := "State " ++ normalizedState ++ " is covered by SS program only.",
          errors := [], warnings := [] }
      else
        { program := none, confidence := "none",
          reason := "State " ++ normalizedState ++ " is not covered by any program.",
          errors := ["State " ++ normalizedState ++ " not covered by CW or SS tables"],
          warnings := [] }

/-!
## Workbook Ingestion (state scan and minimum premiums)

Embedding of `scanForStateCodes` and `extractMinPremiums` from the
workbook-ingestion module.  A sheet is a grid of optional cell values; cell
values are carried as the strings the source coerces them to.  `dims = some
(er, ec)` models a decoded `!ref` range with last row `er` and last column
`ec`; `dims = none` models a sheet without `!ref`.
-/

/-- The source's 50-states-plus-DC code list. -/
def validStates : List String :=
  ["AL", "AK", "AZ", "AR", "CA", "CO", "CT", "DE", "FL", "GA",
   "HI", "ID", "IL", "IN", "IA", "KS", "KY", "LA", "ME", "MD",
   "MA", "MI", "MN", "MS", "MO", "MT", "NE", "NV", "NH", "NJ",
   "NM", "NY", "NC", "ND", "OH", "OK", "OR", "PA", "RI", "SC",
   "SD", "TN", "TX", "UT", "VT", "VA", "WA", "WV", "WI", "WY", "DC"]

/-- A spreadsheet sheet as consulted by the ingestion scan. -/
structure Sheet where
  dims : Option (Nat × Nat)
  cell : Nat → Nat → Option String

/-- Code-unit-wise string comparison, as used by the default JavaScript
`Array.prototype.sort` comparator on ASCII state codes. -/
def charListLe : List Char → List Char → Bool
  | [], _ => true
  | _ :: _, [] => false
  | a :: as, b :: bs =>
    if a.toNat < b.toNat then true
    else if b.toNat < a.toNat then false
    else charListLe as bs

/-- Insert into a sorted list of strings. -/
def insertSorted (s : String) : List String → List String
  | [] => [s]
  | t :: ts => if charListLe s.data t.data then s :: t :: ts else t :: insertSorted s ts

/-- Sort a list of strings (models `Array.from(set).sort()`). -/
def sortStrings : List String → List String
  | [] => []
  | s :: ss => insertSorted s (sortStrings ss)

/-- Deduplicate keeping first occurrences (models accumulation into a
JavaScript `Set`). -/
def dedupAux (seen : List String) : List String → List String
  | [] => []
  | x :: xs => if seen.contains x then dedupAux seen xs else x :: dedupAux (x :: seen) xs

/-- `scanForStateCodes`: scan every cell of the sheet's range in row-major
order, keep the (trimmed, uppercased) values that are valid state codes,
deduplicate and sort.  A missing cell or an empty (falsy) value is
skipped. -/
def scanForStateCodes (sheet : Sheet) : List String :=
  match sheet.dims with
  | none => []
  | some (er, ec) =>
    let hits := (List.range (er + 1)).flatMap (fun r =>
      (List.range (ec + 1)).filterMap (fun c =>
        match sheet.cell r c with
        | none => none
        | some v =>
          if v = "" then none
          else
            let value := jsToUpper (jsTrim v)
            if validStates.contains value then some value else none))
    sortStrings (dedupAux [] hits)

/-- `extractMinPremiums`: for every state code detected anywhere in the
sheet, emit the fixed pair `perUnit = 250`, `perPolicy = 1000`.  The body
carries an explicit `TODO: Extract actual min premiums from sheet`; no cell
content other than the state scan is consulted. -/
def extractMinPremiums (sheet : Sheet) : List (String × MinPremiums) :=
  (scanForStateCodes sheet).map (fun st => (st, { perUnit := 250, perPolicy := 1000 }))

/-- A concrete sheet holding labelled minimum-premium cells with adjacent
numeric values (999 and 888) and one state code. -/
def minPremiumSheet : Sheet :=
  { dims := some (2, 1),
    cell := fun r c =>
      match r, c with
      | 0, 0 => some "Min Premium Per Unit"
      | 0, 1 => some "999"
      | 1, 0 => some "Min Premium Per Policy"
      | 1, 1 => some "888"
      | 2, 0 => some "TX"
      | _, _ => none }

/-!
## Document Field Normalization

Embedding of `normalizeVehicleClass` from the extraction module.  The
source matches the lowercased, trimmed input against the regular expression
pattern: an optional prefix of the word class plus whitespace, followed by
one captured digit, returning the captured digit.  The regular-expression
engine scans candidate start positions left to right; a match starting
before the first digit can only do so via the digit-free optional prefix
and still captures that same first digit, so the capture is always exactly
the first digit character of the string.  `firstDigitChar` implements that
capture directly.
-/

/-- The first digit character of a character list, if any: the capture of
the source's digit pattern (see section comment). -/
def firstDigitChar (l : List Char) : Option Char := l.find? (fun c => c.isDigit)

/-- Whether `p` is a leading segment of the second list. -/
def startsWithChars : List Char → List Char → Bool
  | [], _ => true
  | _ :: _, [] => false
  | p :: ps, c :: cs => p = c && startsWithChars ps cs

/-- Substring containment over character lists (JavaScript
`String.prototype.includes`). -/
def containsChars (pat : List Char) : List Char → Bool
  | [] => pat.isEmpty
  | c :: cs => startsWithChars pat (c :: cs) || containsChars pat cs

/-- `normalizeVehicleClass`: empty (falsy) input gives no class; otherwise
the trimmed, lowercased input is searched for a digit (optionally prefixed
by the word class), and the digit is returned; only failing that, an input
containing the token class1 returns the special token, and anything else
returns the trimmed original.  The class1 branch is unreachable: any string
containing that token contains a digit. -/
def normalizeVehicleClass (classInput : String) : Option String :=
  if classInput = "" then none
  else
    let input := jsToLower (jsTrim classInput)
    match firstDigitChar input.data with
    | some d => some (String.mk [d])
    | none =>
      if containsChars "class1".data input.data then some "Class1"
      else some (jsTrim classInput)

/-!
## Reconciliation Engine

Embedding of `reconcileTotals` and its helpers.  The computed and
PDF-extracted records are the nine-component totals objects; a component
whose value is not a number on one side is `none` (the source's
`typeof x === 'number'` test).  The `isNaN`/`isFinite` guard on the total
delta cannot fire in the rational model, where every value is finite.
-/

/-- The nine-component totals record compared by reconciliation. -/
structure Totals where
  alSubtotal : Option ℚ
  policyFee : Option ℚ
  uwFee : Option ℚ
  brokerFee : Option ℚ
  slt : Option ℚ
  stamp : Option ℚ
  fire : Option ℚ
  other : Option ℚ
  total : Option ℚ

/-- `calculateDelta`: computed minus PDF. -/
def calculateDelta (computed pdf : ℚ) : ℚ := computed - pdf

/-- `isWithinTolerance`: inclusive comparison of an absolute delta against
the tolerance. -/
def isWithinTolerance (absoluteDelta tolerance : ℚ) : Prop :=
  absoluteDelta ≤ tolerance

instance (a t : ℚ) : Decidable (isWithinTolerance a t) :=
  inferInstanceAs (Decidable (a ≤ t))

/-- `calculatePercentDiff`: unsigned percentage difference with the
zero-PDF convention. -/
def calculatePercentDiff (computed pdf : ℚ) : ℚ :=
  if pdf = 0 then (if computed = 0 then 0 else 100)
  else |(computed - pdf) / pdf| * 100

/-- One entry of the reconciliation breakdown. -/
structure ReconEntry where
  component : String
  name : String
  computedValue : Option ℚ
  pdfValue : Option ℚ
  delta : Option ℚ
  isMatch : Bool

/-- One entry of the discrepancy list. -/
structure Discrepancy where
  component : String
  name : String
  computedValue : Option ℚ
  pdfValue : Option ℚ
  delta : Option ℚ
  percentDiff : ℚ

/-- Accumulator of the component loop. -/
structure LoopAcc where
  breakdown : List ReconEntry
  deltaMap : List (String × Option ℚ)
  discrepancies : List Discrepancy
  componentMismatches : ℕ

/-- The source's fixed component mapping, paired with both sides' values. -/
def componentPairs (c p : Totals) : List (String × String × Option ℚ × Option ℚ) :=
  [("alSubtotal", "AL Base Premium", c.alSubtotal, p.alSubtotal),
   ("policyFee", "Policy Fee", c.policyFee, p.policyFee),
   ("uwFee", "UW Fee", c.uwFee, p.uwFee),
   ("brokerFee", "Broker Fee", c.brokerFee, p.brokerFee),
   ("slt", "SLT", c.slt, p.slt),
   ("stamp", "Stamp Fee", c.stamp, p.stamp),
   ("fire", "Fire Marshal Fee", c.fire, p.fire),
   ("other", "Other Fees", c.other, p.other),
   ("total", "Total Premium", c.total, p.total)]

/-- The component loop of `reconcileTotals`: skip components missing on
both sides, record a breakdown entry and a delta-map entry for the rest,
and count every component whose (two-sided) delta is non-zero as a
discrepancy — the total component included. -/
def processComponents : List (String × String × Option ℚ × Option ℚ) → LoopAcc → LoopAcc
  | [], acc => acc
  | (key, name, cv, pv) :: rest, acc =>
    match cv, pv with
    | none, none => processComponents rest acc
    | _, _ =>
      let delta : Option ℚ :=
        match cv, pv with
        | some cvv, some pvv => some (calculateDelta cvv pvv)
        | _, _ => none
      let entry : ReconEntry :=
        { component := key, name := name, computedValue := cv, pdfValue := pv,
          delta := delta, isMatch := if delta = some 0 then true else false }
      let acc1 : LoopAcc :=
        { breakdown := acc.breakdown ++ [entry],
          deltaMap := acc.deltaMap ++ [(key, delta)],
          discrepancies := acc.discrepancies,
          componentMismatches := acc.componentMismatches }
      let acc2 : LoopAcc :=
        match delta with
        | some d =>
          if d ≠ 0 then
            { acc1 with
              discrepancies := acc1.discrepancies ++
                [{ component := key, name := name, computedValue := cv,
                   pdfValue := pv, delta := delta,
                   percentDiff := calculatePercentDiff (cv.getD 0) (pv.getD 0) }],
              componentMismatches := acc1.componentMismatches + 1 }
          else acc1
        | none => acc1
      processComponents rest acc2

/-- Property lookup on the delta map built by the component loop
(`result.delta.total`): absent key = property never written. -/
def lookupDelta : List (String × Option ℚ) → String → Option (Option ℚ)
  | [], _ => none
  | (k, v) :: rest, key => if k = key then some v else lookupDelta rest key

/-- JavaScript truthiness of an optional number (`computed.total &&
pdfExtracted.total`). -/
def jsTruthyNum : Option ℚ → Bool
  | some v => if v = 0 then false else true
  | none => false

/-- Options record of `reconcileTotals`. -/
structure ReconOptions where
  tolerance : Option ℚ

/-- Result record of `reconcileTotals`. -/
structure ReconResult where
  status : String
  computed : Option Totals
  pdf : Option Totals
  delta : List (String × Option ℚ)
  breakdown : List ReconEntry
  discrepancies : List Discrepancy
  tolerance : ℚ
  percentDiff : ℚ
  componentMismatches : ℕ
  errors : List String
  warnings : List String

/-- `reconcileTotals`: compare a computed fee breakdown against
PDF-extracted values.  The tolerance is `options.tolerance || 500`, so an
explicit zero falls back to the default.  Status: ERROR for a missing
computed object, NO_PDF_DATA for missing PDF data, NO_TOTAL when the total
delta is absent or one-sided, then PASS / WARN / FAIL from the inclusive
tolerance test and the component-mismatch count. -/
def reconcileTotals (computed : Option Totals) (pdfExtracted : Option Totals)
    (options : ReconOptions) : ReconResult :=
  let tolerance := jsOrOptNum options.tolerance 500
  match computed with
  | none =>
    { status := "ERROR", computed := none, pdf := none, delta := [],
      breakdown := [], discrepancies := [], tolerance := tolerance,
      percentDiff := 0, componentMismatches := 0,
      errors := ["Invalid computed data"], warnings := [] }
  | some c =>
    match pdfExtracted with
    | none =>
      { status := "NO_PDF_DATA", computed := some c, pdf := none, delta := [],
        breakdown := [], discrepancies := [], tolerance := tolerance,
        percentDiff := 0, componentMismatches := 0, errors := [],
        warnings := ["No PDF data available for comparison"] }
    | some p =>
      let acc := processComponents (componentPairs c p)
        { breakdown := [], deltaMap := [], discrepancies := [],
          componentMismatches := 0 }
      match lookupDelta acc.deltaMap "total" with
      | none =>
        { status := "NO_TOTAL", computed := some c, pdf := some p,
          delta := acc.deltaMap, breakdown := acc.breakdown,
          discrepancies := acc.discrepancies, tolerance := tolerance,
          percentDiff := 0, componentMismatches := acc.componentMismatches,
          errors := [], warnings := ["Total not available for comparison"] }
      | some none =>
        { status := "NO_TOTAL", computed := some c, pdf := some p,
          delta := acc.deltaMap, breakdown := acc.breakdown,
          discrepancies := acc.discrepancies, tolerance := tolerance,
          percentDiff := 0, componentMismatches := acc.componentMismatches,
          errors := [], warnings := ["Total not available for comparison"] }
      | some (some totalDelta) =>
        let status :=
          if isWithinTolerance |totalDelta| tolerance then
            if acc.componentMismatches = 0 then "PASS" else "WARN"
          else "FAIL"
        let warnings :=
          if isWithinTolerance |totalDelta| tolerance ∧ acc.componentMismatches ≠ 0 then
            ["Total within tolerance but component discrepancies detected"]
          else []
        let percentDiff :=
          if jsTruthyNum c.total ∧ jsTruthyNum p.total then
            calculatePercentDiff (c.total.getD 0) (p.total.getD 0)
          else 0
        { status := status, computed := some c, pdf := some p,
          delta := acc.deltaMap, breakdown := acc.breakdown,
          discrepancies := acc.discrepancies, tolerance := tolerance,
          percentDiff := percentDiff,
          componentMismatches := acc.componentMismatches, errors := [],
          warnings := warnings }

/-- A totals record carrying only a grand total, as in the reconciliation
unit tests. -/
def totalsOnly (t : Option ℚ) : Totals :=
  { alSubtotal := none, policyFee := none, uwFee := none, brokerFee := none,
    slt := none, stamp := none, fire := none, other := none, total := t }

/-!
## Helper lemmas
-/

/-- Unfolding lemma for `roundToCents` with its lets flattened. -/
theorem roundToCents_def (v : ℚ) :
    roundToCents v = if |v - ⌊v⌋ - 1/2| < 1/10000
      then (if ⌊v⌋ % 2 = 0 then ⌊v⌋ else ⌈v⌉) else jsRound v := rfl

/-- Absolute value as a conditional, for literal evaluation. -/
theorem abs_ite (a : ℚ) : |a| = if 0 ≤ a then a else -a := by
  by_cases h : 0 ≤ a
  · rw [if_pos h, abs_of_nonneg h]
  · rw [if_neg h, abs_of_neg (lt_of_not_ge h)]

/-- The tolerance field of a reconciliation result always holds
`options.tolerance || 500`. -/
theorem recon_tolerance_field (c p : Option Totals) (o : ReconOptions) :
    (reconcileTotals c p o).tolerance = jsOrOptNum o.tolerance 500 := by
  unfold reconcileTotals
  cases c with
  | none => rfl
  | some c' =>
    cases p with
    | none => rfl
    | some p' =>
      simp only []
      split <;> rfl

/-!
## Claim theorems
-/

/-- C1: claims that with tolerance 500 an absolute total delta of exactly
500 yields PASS, 501 yields FAIL, and 300 with a component mismatch yields
WARN.  On the code, the total component's own non-zero delta is itself
counted as a component mismatch, so totals 10500 vs 10000 (delta exactly
500, no other component present) produce status WARN with
componentMismatches = 1 — not PASS, which the reconciliation unit test for
a small total-only difference expects.  The 501 and 300-with-mismatch
sub-claims hold as stated.  This theorem evaluates the code at all three
inputs. -/
theorem reconcileTotals_total_self_mismatch :
    (reconcileTotals (some (totalsOnly (some 10500)))
      (some (totalsOnly (some 10000))) { tolerance := some 500 }).status = "WARN" ∧
    (reconcileTotals (some (totalsOnly (some 10500)))
      (some (totalsOnly (some 10000))) { tolerance := some 500 }).componentMismatches = 1 ∧
    (reconcileTotals (some (totalsOnly (some 10501)))
      (some (totalsOnly (some 10000))) { tolerance := some 500 }).status = "FAIL" ∧
    (reconcileTotals (some { totalsOnly (some 10300) with alSubtotal := some 100 })
      (some { totalsOnly (some 10000) with alSubtotal := some 200 })
      { tolerance := some 500 }).status = "WARN" := by
  refine ⟨?_, ?_, ?_, ?_⟩ <;>
  · norm_num [reconcileTotals, componentPairs, processComponents, calculateDelta,
      isWithinTolerance, jsTruthyNum, calculatePercentDiff, jsOrOptNum, jsOrNum,
      lookupDelta, totalsOnly, abs_ite]
    try simp
    try norm_num [abs_ite]

/-- C2: for every input and tax rules with positive SLT and stamp rates,
calculating fees and taxes with `isAdmitted = true` forces `slt = 0` and
`stamp = 0`, while the fire and other components equal those of the
`isAdmitted = false` run on the same input (admitted status does not affect
them). -/
theorem calculateFeesAndTaxes_admitted_zeroing (input : FeeInput)
    (rules : TaxRules) (_hslt : 0 < rules.slt_rate)
    (_hstamp : 0 < rules.stamp_rate) :
    (calculateFeesAndTaxes { input with isAdmitted := true } (some rules)).slt = 0 ∧
    (calculateFeesAndTaxes { input with isAdmitted := true } (some rules)).stamp = 0 ∧
    (calculateFeesAndTaxes { input with isAdmitted := true } (some rules)).fire
      = (calculateFeesAndTaxes { input with isAdmitted := false } (some rules)).fire ∧
    (calculateFeesAndTaxes { input with isAdmitted := true } (some rules)).other
      = (calculateFeesAndTaxes { input with isAdmitted := false } (some rules)).other := by
  simp [calculateFeesAndTaxes]

/-- C2 witness: concrete instantiation at a quote with SLT rate 4.85 % and
stamp rate 0.2 %. -/
theorem calculateFeesAndTaxes_admitted_zeroing_witness :
    (0 : ℚ) < 485/10000 ∧ (0 : ℚ) < 2/1000 ∧
    ((calculateFeesAndTaxes
        { alSubtotal := 10000, state := "TX", policyType := some "new",
          isAdmitted := true, brokerFee := none }
        (some { slt_rate := 485/10000, stamp_rate := 2/1000,
                fire := some { type := "flat", value := 50 }, other := none,
                taxable := none, uwPolicyFees := none })).slt = 0 ∧
      (calculateFeesAndTaxes
        { alSubtotal := 10000, state := "TX", policyType := some "new",
          isAdmitted := true, brokerFee := none }
        (some { slt_rate := 485/10000, stamp_rate := 2/1000,
                fire := some { type := "flat", value := 50 }, other := none,
                taxable := none, uwPolicyFees := none })).stamp = 0 ∧
      (calculateFeesAndTaxes
        { alSubtotal := 10000, state := "TX", policyType := some "new",
          isAdmitted := true, brokerFee := none }
        (some { slt_rate := 485/10000, stamp_rate := 2/1000,
                fire := some { type := "flat", value := 50 }, other := none,
                taxable := none, uwPolicyFees := none })).fire
        = (calculateFeesAndTaxes
            { alSubtotal := 10000, state := "TX", policyType := some "new",
              isAdmitted := false, brokerFee := none }
            (some { slt_rate := 485/10000, stamp_rate := 2/1000,
                    fire := some { type := "flat", value := 50 }, other := none,
                    taxable := none, uwPolicyFees := none })).fire ∧
      (calculateFeesAndTaxes
        { alSubtotal := 10000, state := "TX", policyType := some "new",
          isAdmitted := true, brokerFee := none }
        (some { slt_rate := 485/10000, stamp_rate := 2/1000,
                fire := some { type := "flat", value := 50 }, other := none,
                taxable := none, uwPolicyFees := none })).other
        = (calculateFeesAndTaxes
            { alSubtotal := 10000, state := "TX", policyType := some "new",
              isAdmitted := false, brokerFee := none }
            (some { slt_rate := 485/10000, stamp_rate := 2/1000,
                    fire := some { type := "flat", value := 50 }, other := none,
                    taxable := none, uwPolicyFees := none })).other) :=
  ⟨by norm_num, by norm_num,
    calculateFeesAndTaxes_admitted_zeroing
      { alSubtotal := 10000, state := "TX", policyType := some "new",
        isAdmitted := false, brokerFee := none }
      { slt_rate := 485/10000, stamp_rate := 2/1000,
        fire := some { type := "flat", value := 50 }, other := none,
        taxable := none, uwPolicyFees := none }
      (by norm_num) (by norm_num)⟩

/-- C3: with a positive per-unit and per-policy minimum configured,
applying minimum premiums first raises each unit premium to the per-unit
floor, then sums the adjusted premiums, then raises that subtotal to the
per-policy floor; in particular unit premiums [200, 300] under minima
perUnit 250 / perPolicy 1000 give subtotal 1000 tagged policy. -/
theorem applyMinimumPremium_unit_then_policy (units : List UnitPremium)
    (mp : MinPremiums) (hu : 0 < mp.perUnit) (hp : 0 < mp.perPolicy) :
    (applyMinimumPremium units (some mp)).perUnit.map (fun u => u.premium)
        = units.map (fun u => max mp.perUnit u.premium) ∧
    (applyMinimumPremium units (some mp)).subtotal
        = max mp.perPolicy ((units.map (fun u => max mp.perUnit u.premium)).sum) ∧
    (applyMinimumPremium [⟨200, none⟩, ⟨300, none⟩] (some ⟨250, 1000⟩)).subtotal
        = 1000 ∧
    (applyMinimumPremium [⟨200, none⟩, ⟨300, none⟩] (some ⟨250, 1000⟩)).minimumApplied
        = some "policy" := by
  have hcond : mp.perUnit ≠ 0 ∧ 0 < mp.perUnit := ⟨ne_of_gt hu, hu⟩
  have hprem : ∀ l : List UnitPremium,
      (l.map (fun u =>
        if u.premium < mp.perUnit then
          { u with premium := mp.perUnit, minimumApplied := some "per-unit" }
        else u)).map (fun u => u.premium)
      = l.map (fun u => max mp.perUnit u.premium) := by
    intro l
    rw [List.map_map]
    apply List.map_congr_left
    intro u _
    by_cases hlt : u.premium < mp.perUnit
    · simp [hlt, max_eq_left (le_of_lt hlt)]
    · simp [hlt, max_eq_right (not_lt.mp hlt)]
  refine ⟨?_, ?_, ?_, ?_⟩
  · simp only [applyMinimumPremium, if_pos hcond]
    exact hprem units
  · simp only [applyMinimumPremium, if_pos hcond]
    rw [hprem units]
    by_cases hlt : (units.map (fun u => max mp.perUnit u.premium)).sum < mp.perPolicy
    · rw [if_pos ⟨⟨ne_of_gt hp, hp⟩, hlt⟩, max_eq_left (le_of_lt hlt)]
    · rw [if_neg ?_, max_eq_right (not_lt.mp hlt)]
      intro hcontra
      exact hlt hcontra.2
  · norm_num [applyMinimumPremium]
  · norm_num [applyMinimumPremium]
    exact fun h => absurd h (by simp)

/-- C3 witness: the theorem instantiated at unit premiums [200, 300] and
minima perUnit 250 / perPolicy 1000. -/
theorem applyMinimumPremium_unit_then_policy_witness :
    (applyMinimumPremium [⟨200, none⟩, ⟨300, none⟩] (some ⟨250, 1000⟩)).perUnit.map
        (fun u => u.premium)
      = [(⟨200, none⟩ : UnitPremium), ⟨300, none⟩].map
          (fun u => max (250 : ℚ) u.premium) ∧
    (applyMinimumPremium [⟨200, none⟩, ⟨300, none⟩] (some ⟨250, 1000⟩)).subtotal
      = max 1000 (([(⟨200, none⟩ : UnitPremium), ⟨300, none⟩].map
          (fun u => max (250 : ℚ) u.premium)).sum) ∧
    (applyMinimumPremium [⟨200, none⟩, ⟨300, none⟩] (some ⟨250, 1000⟩)).subtotal
      = 1000 ∧
    (applyMinimumPremium [⟨200, none⟩, ⟨300, none⟩] (some ⟨250, 1000⟩)).minimumApplied
      = some "policy" :=
  applyMinimumPremium_unit_then_policy [⟨200, none⟩, ⟨300, none⟩] ⟨250, 1000⟩
    (by norm_num) (by norm_num)

/-- C4: for valid loaded tables and a non-blank state code, resolution
returns CW with confidence medium plus an overlap warning when both tables
cover the (normalized) state, the single covering program with confidence
high when exactly one covers it, and no program with confidence none plus
an error when neither covers it. -/
theorem resolveProgram_state_coverage (state : String) (cw ss : RatingTable)
    (cwKeys ssKeys : List String)
    (hcw : cw.bodyClass = some cwKeys) (hss : ss.bodyClass = some ssKeys)
    (hstate : trimChars state.data ≠ []) :
    ((jsToUpper (jsTrim state)) ∈ cwKeys → (jsToUpper (jsTrim state)) ∈ ssKeys →
      (resolveProgram state (some cw) (some ss)).program = some "CW" ∧
      (resolveProgram state (some cw) (some ss)).confidence = "medium" ∧
      (resolveProgram state (some cw) (some ss)).warnings ≠ []) ∧
    ((jsToUpper (jsTrim state)) ∈ cwKeys → (jsToUpper (jsTrim state)) ∉ ssKeys →
      (resolveProgram state (some cw) (some ss)).program = some "CW" ∧
      (resolveProgram state (some cw) (some ss)).confidence = "high") ∧
    ((jsToUpper (jsTrim state)) ∉ cwKeys → (jsToUpper (jsTrim state)) ∈ ssKeys →
      (resolveProgram state (some cw) (some ss)).program = some "SS" ∧
      (resolveProgram state (some cw) (some ss)).confidence = "high") ∧
    ((jsToUpper (jsTrim state)) ∉ cwKeys → (jsToUpper (jsTrim state)) ∉ ssKeys →
      (resolveProgram state (some cw) (some ss)).program = none ∧
      (resolveProgram state (some cw) (some ss)).confidence = "none" ∧
      (resolveProgram state (some cw) (some ss)).errors ≠ []) := by
  unfold resolveProgram
  rw [if_neg hstate]
  simp only [Option.bind, hcw, hss]
  refine ⟨?_, ?_, ?_, ?_⟩ <;> intro h1 h2 <;> simp [h1, h2]

/-- C4 witness: with CW covering TX and CA, SS covering TX and FL, the
overlapping state TX resolves to CW with confidence medium and a
warning. -/
theorem resolveProgram_state_coverage_witness :
    (resolveProgram "TX" (some { bodyClass := some ["TX", "CA"] })
        (some { bodyClass := some ["TX", "FL"] })).program = some "CW" ∧
    (resolveProgram "TX" (some { bodyClass := some ["TX", "CA"] })
        (some { bodyClass := some ["TX", "FL"] })).confidence = "medium" ∧
    (resolveProgram "TX" (some { bodyClass := some ["TX", "CA"] })
        (some { bodyClass := some ["TX", "FL"] })).warnings ≠ [] :=
  (resolveProgram_state_coverage "TX" { bodyClass := some ["TX", "CA"] }
    { bodyClass := some ["TX", "FL"] } ["TX", "CA"] ["TX", "FL"] rfl rfl
    (by decide)).1 (by decide) (by decide)

/-- C5: with at least two drivers, weighted aggregation returns the first
driver's composite factor times 0.60 plus the sum of the remaining
composite factors weighted by 0.40 divided by their count; in particular
composites [0.90, 1.66, 0.73] aggregate to 1.018. -/
theorem aggregateDriverFactors_weighted_split (d : DriverFactor)
    (ds : List DriverFactor) (h : ds ≠ []) :
    aggregateDriverFactors (d :: ds) "weighted"
      = d.compositeFactor * 0.60
        + ((ds.map (fun x => x.compositeFactor)).sum * (0.40 / (ds.length : ℚ))) ∧
    aggregateDriverFactors [⟨0.90⟩, ⟨1.66⟩, ⟨0.73⟩] "weighted" = 1.018 := by
  constructor
  · match ds, h with
    | e :: es, _ =>
      show aggregateDriverFactors (d :: e :: es) "weighted" = _
      simp only [aggregateDriverFactors]
      have hlow : jsToLower "weighted" = "weighted" := by decide
      rw [hlow, List.sum_map_mul_right, if_neg (by decide), if_neg (by decide),
        if_pos rfl]
  · simp only [aggregateDriverFactors]
    have hlow : jsToLower "weighted" = "weighted" := by decide
    rw [hlow, if_neg (by decide), if_neg (by decide), if_pos rfl]
    norm_num

/-- C5 witness: the theorem instantiated at the three composites 0.90,
1.66, 0.73, whose weighted aggregate is 1.018. -/
theorem aggregateDriverFactors_weighted_split_witness :
    aggregateDriverFactors [⟨0.90⟩, ⟨1.66⟩, ⟨0.73⟩] "weighted" = 1.018 :=
  (aggregateDriverFactors_weighted_split ⟨0.90⟩ [⟨1.66⟩, ⟨0.73⟩] (by simp)).2

/-- C6 counterexample: the claim says that whenever the fractional part is
not exactly 0.5 the function rounds to the nearest integer.  At
3.49995 (fractional part 0.49995, nearest integer 3) the function returns
4, because a fractional part within 0.0001 of 0.5 is treated as a half
case and rounded toward the even neighbour. -/
theorem roundToCents_nearest_counterexample :
    roundToCents (69999/20000) = 4 ∧
    (69999/20000 : ℚ) - (⌊(69999/20000 : ℚ)⌋ : ℚ) ≠ 1/2 ∧
    |(69999/20000 : ℚ) - 3| < |(69999/20000 : ℚ) - 4| := by
  refine ⟨?_, by norm_num, ?_⟩
  · unfold roundToCents jsRound
    norm_num [abs_lt, Int.ceil_eq_iff]
  · rw [show |(69999/20000 : ℚ) - 3| = 9999/20000 by rw [abs_of_pos] <;> norm_num,
        show |(69999/20000 : ℚ) - 4| = 10001/20000 by rw [abs_of_neg] <;> norm_num]
    norm_num

/-- C6 (amended): roundToCents treats any value whose fractional part lies
within 0.0001 of 0.5 as a half case, returning the even one of the two
neighbouring integers; for every other value it rounds to the strictly
nearest integer (via `Math.round`); in particular 123.456 rounds to 123,
123.567 to 124, and 123.5 to 124. -/
theorem roundToCents_half_band_even (v : ℚ) :
    (|v - ⌊v⌋ - 1/2| < 1/10000 →
      (roundToCents v) % 2 = 0 ∧
      (roundToCents v = ⌊v⌋ ∨ roundToCents v = ⌊v⌋ + 1)) ∧
    (1/10000 ≤ |v - ⌊v⌋ - 1/2| →
      roundToCents v = jsRound v ∧ |v - (roundToCents v : ℚ)| < 1/2) ∧
    roundToCents (123456/1000) = 123 ∧
    roundToCents (123567/1000) = 124 ∧
    roundToCents (247/2) = 124 := by
  refine ⟨?_, ?_, ?_, ?_, ?_⟩
  · intro hband
    have hb := abs_lt.mp hband
    have hceil : ⌈v⌉ = ⌊v⌋ + 1 := by
      rw [Int.ceil_eq_iff]
      constructor
      · push_cast
        linarith [hb.1]
      · push_cast
        linarith [hb.2]
    rw [roundToCents_def, if_pos hband]
    by_cases he : ⌊v⌋ % 2 = 0
    · rw [if_pos he]
      exact ⟨he, Or.inl rfl⟩
    · rw [if_neg he, hceil]
      have h1 : ⌊v⌋ % 2 = 1 := Int.emod_two_eq_zero_or_one ⌊v⌋ |>.resolve_left he
      exact ⟨by omega, Or.inr rfl⟩
  · intro hnot
    have hnot' : ¬(|v - ⌊v⌋ - 1/2| < 1/10000) := not_lt.mpr hnot
    rw [roundToCents_def, if_neg hnot']
    refine ⟨rfl, ?_⟩
    have hfl : (⌊v⌋ : ℚ) ≤ v := Int.floor_le v
    have hfu : v < ⌊v⌋ + 1 := Int.lt_floor_add_one v
    rcases le_abs.mp hnot with h | h
    · have hj : jsRound v = ⌊v⌋ + 1 := by
        unfold jsRound
        rw [Int.floor_eq_iff]
        constructor
        · push_cast
          linarith
        · push_cast
          linarith
      rw [hj, abs_lt]
      constructor
      · push_cast
        linarith
      · push_cast
        linarith
    · have hj : jsRound v = ⌊v⌋ := by
        unfold jsRound
        rw [Int.floor_eq_iff]
        constructor
        · linarith
        · linarith
      rw [hj, abs_lt]
      constructor
      · linarith
      · linarith
  · unfold roundToCents jsRound
    norm_num [abs_lt, Int.ceil_eq_iff]
  · unfold roundToCents jsRound
    norm_num [abs_lt, Int.ceil_eq_iff]
  · unfold roundToCents jsRound
    norm_num [abs_lt, Int.ceil_eq_iff]

/-- C6 (amended) witness: the half-band clause instantiated at 3.49995,
whose rounding is the even neighbour 4. -/
theorem roundToCents_half_band_even_witness :
    (roundToCents (69999/20000)) % 2 = 0 ∧
    (roundToCents (69999/20000) = ⌊(69999/20000 : ℚ)⌋ ∨
     roundToCents (69999/20000) = ⌊(69999/20000 : ℚ)⌋ + 1) :=
  (roundToCents_half_band_even (69999/20000)).1 (by norm_num [abs_lt])

/-- C7 counterexample: the claim says extractMinPremiums reads the numeric
cell adjacent to each labelled cell.  On a sheet whose labelled cells sit
next to the numeric values 999 and 888, the function still returns the
fixed pair 250 / 1000 for the detected state, ignoring the labels and the
adjacent cells entirely. -/
theorem extractMinPremiums_ignores_labelled_cells :
    minPremiumSheet.cell 0 0 = some "Min Premium Per Unit" ∧
    minPremiumSheet.cell 0 1 = some "999" ∧
    minPremiumSheet.cell 1 0 = some "Min Premium Per Policy" ∧
    minPremiumSheet.cell 1 1 = some "888" ∧
    extractMinPremiums minPremiumSheet
      = [("TX", { perUnit := 250, perPolicy := 1000 })] := by
  decide

/-- C7 (amended): extractMinPremiums consults no cell content besides the
state-code scan: it returns one entry per state code detected in the sheet,
and every entry carries the fixed placeholders perUnit = 250 and
perPolicy = 1000 regardless of what the sheet's cells hold. -/
theorem extractMinPremiums_fixed_placeholders (sheet : Sheet)
    (e : String × MinPremiums) (he : e ∈ extractMinPremiums sheet) :
    e.2 = { perUnit := 250, perPolicy := 1000 } ∧
    (extractMinPremiums sheet).map Prod.fst = scanForStateCodes sheet := by
  constructor
  · simp only [extractMinPremiums, List.mem_map] at he
    obtain ⟨st, _, rfl⟩ := he
    rfl
  · unfold extractMinPremiums
    rw [List.map_map]
    exact List.map_id'' (fun _ => rfl) _

/-- C7 (amended) witness: instantiation at the labelled sheet and its
single extracted entry. -/
theorem extractMinPremiums_fixed_placeholders_witness :
    (("TX", { perUnit := 250, perPolicy := 1000 }) : String × MinPremiums).2
      = { perUnit := 250, perPolicy := 1000 } ∧
    (extractMinPremiums minPremiumSheet).map Prod.fst
      = scanForStateCodes minPremiumSheet :=
  extractMinPremiums_fixed_placeholders minPremiumSheet
    ("TX", { perUnit := 250, perPolicy := 1000 }) (by decide)

/-- C8: the claim says Class 8, class8 and 8 normalize to 8, and Class1 and
Class 1 normalize to Class1.  The first part holds, but the digit pattern
matches before the dedicated Class1 branch can run (that branch is dead
code), so Class1 and Class 1 normalize to 1, contradicting the code's own
special-case branch for the Class1 token.  This theorem evaluates the code
at all five inputs. -/
theorem normalizeVehicleClass_digit_capture :
    normalizeVehicleClass "Class 8" = some "8" ∧
    normalizeVehicleClass "class8" = some "8" ∧
    normalizeVehicleClass "8" = some "8" ∧
    normalizeVehicleClass "Class1" = some "1" ∧
    normalizeVehicleClass "Class 1" = some "1" := by
  decide

/-- C9: aggregating an empty driver list returns the neutral factor 1.0
for every aggregation method string; the empty case returns before any
method dispatch, so no division (by the driver count) is reachable. -/
theorem aggregateDriverFactors_empty_neutral (method : String) :
    aggregateDriverFactors [] method = 1 := rfl

/-- C10: for every computed/PDF pair, an explicit caller-supplied tolerance
of 0 is falsy in the `options.tolerance || 500` default, so the result is
identical to the default-tolerance result in every field — tolerance 500
included — and an exact-match (zero-tolerance) reconciliation cannot be
requested. -/
theorem reconcileTotals_zero_tolerance_default (c p : Option Totals) :
    reconcileTotals c p { tolerance := some 0 }
      = reconcileTotals c p { tolerance := none } ∧
    (reconcileTotals c p { tolerance := some 0 }).tolerance = 500 := by
  constructor
  · unfold reconcileTotals
    norm_num [jsOrOptNum, jsOrNum]
  · rw [recon_tolerance_field]
    norm_num [jsOrOptNum, jsOrNum]
